import Mathlib

/-!
Verification of the NYC taxi demand predictor core
(training-to-serving lifecycle of `urban_mobility_forecaster`).

Shallow embedding conventions:
- Python floats are modelled as rationals (`ℚ`); the code performs no
  floating-point arithmetic of its own beyond comparisons, `max`, and the
  metric formulas, all of which are modelled exactly.
- The trained XGBoost model is opaque: serving-side it is a function from
  a feature row to a scalar; store-side it is an arbitrary type parameter.
- File-system state is explicit: the models directory is a record of the
  three artifact resources, and each operation additionally reports the
  trace of storage operations it performed.
-/

/-! ## Feature schema and hyperparameters (config.py) -/

/-- The 17 feature column names, in training order (config.py, FEATURE_COLUMNS). -/
def FEATURE_COLUMNS : List String :=
  [ "hour_sin", "hour_cos",
    "dow_sin", "dow_cos",
    "month_sin", "month_cos",
    "lag_1h", "lag_24h", "lag_168h",
    "diff_24h",
    "rolling_7d_mean", "rolling_7d_std",
    "rolling_14d_mean", "rolling_7d_cv",
    "zone_mean_demand", "zone_rank", "zone_is_top50" ]

/-- XGBoost hyperparameters (config.py, XGBOOST_PARAMS), as an ordered
key/value map; numeric literals are modelled as rationals. -/
def XGBOOST_PARAMS : List (String × ℚ) :=
  [ ("n_estimators", 500),
    ("max_depth", 6),
    ("learning_rate", 1/10),
    ("subsample", 4/5),
    ("colsample_bytree", 4/5),
    ("random_state", 42),
    ("n_jobs", -1) ]

/-! ## Prediction request/response (api.py) -/

/-- Schema for a prediction request with 17 engineered features
(api.py, class PredictionRequest).  All fields are floats except the
integer flag `zone_is_top50`. -/
structure PredictionRequest where
  hour_sin : ℚ
  hour_cos : ℚ
  dow_sin : ℚ
  dow_cos : ℚ
  month_sin : ℚ
  month_cos : ℚ
  lag_1h : ℚ
  lag_24h : ℚ
  lag_168h : ℚ
  diff_24h : ℚ
  rolling_7d_mean : ℚ
  rolling_7d_std : ℚ
  rolling_14d_mean : ℚ
  rolling_7d_cv : ℚ
  zone_mean_demand : ℚ
  zone_rank : ℚ
  zone_is_top50 : ℤ
deriving DecidableEq

/-- Schema for a prediction response (api.py, class PredictionResponse). -/
structure PredictionResponse where
  predicted_pickups : ℚ
  confidence : String
  model_version : String
deriving DecidableEq

/-- The single-row numeric feature vector built by the predict endpoint
(api.py, predict, the `np.array([[...]])` literal), in source order.
The integer flag is coerced to a numeric entry as NumPy does. -/
def featureVector (r : PredictionRequest) : List ℚ :=
  [ r.hour_sin,
    r.hour_cos,
    r.dow_sin,
    r.dow_cos,
    r.month_sin,
    r.month_cos,
    r.lag_1h,
    r.lag_24h,
    r.lag_168h,
    r.diff_24h,
    r.rolling_7d_mean,
    r.rolling_7d_std,
    r.rolling_14d_mean,
    r.rolling_7d_cv,
    r.zone_mean_demand,
    r.zone_rank,
    (r.zone_is_top50 : ℚ) ]

/-- Look up a request field by its schema name (the association between
pydantic field names and values in class PredictionRequest). -/
def fieldByName (r : PredictionRequest) : String → Option ℚ
  | "hour_sin" => some r.hour_sin
  | "hour_cos" => some r.hour_cos
  | "dow_sin" => some r.dow_sin
  | "dow_cos" => some r.dow_cos
  | "month_sin" => some r.month_sin
  | "month_cos" => some r.month_cos
  | "lag_1h" => some r.lag_1h
  | "lag_24h" => some r.lag_24h
  | "lag_168h" => some r.lag_168h
  | "diff_24h" => some r.diff_24h
  | "rolling_7d_mean" => some r.rolling_7d_mean
  | "rolling_7d_std" => some r.rolling_7d_std
  | "rolling_14d_mean" => some r.rolling_14d_mean
  | "rolling_7d_cv" => some r.rolling_7d_cv
  | "zone_mean_demand" => some r.zone_mean_demand
  | "zone_rank" => some r.zone_rank
  | "zone_is_top50" => some (r.zone_is_top50 : ℚ)
  | _ => none

/-- The predict endpoint (api.py, predict) on a loaded model, which is
opaque serving-side: a function from the feature row to a raw scalar
prediction.  Mirrors the source: build the feature vector, run inference,
bucket confidence on the raw prediction, clamp the returned value at 0. -/
def predictEndpoint (model : List ℚ → ℚ) (r : PredictionRequest) : PredictionResponse :=
  let prediction := model (featureVector r)
  let confidence :=
    if prediction < 5 then "low"
    else if prediction < 20 then "medium"
    else "high"
  { predicted_pickups := max 0 prediction
    confidence := confidence
    model_version := "xgboost-v1.0-test-mae-0.84" }

/-! ## Claims C1 - C3 -/

/-- C1: the feature vector passed to the model lists the request fields in
exactly the Feature Schema order: it has one entry per FEATURE_COLUMNS name
and its i-th entry is the request field named by the i-th schema name. -/
theorem predict_feature_order (r : PredictionRequest) :
    (featureVector r).length = FEATURE_COLUMNS.length ∧
    FEATURE_COLUMNS.map (fieldByName r) = (featureVector r).map some := by
  exact ⟨rfl, rfl⟩

/-- C2: the returned predicted_pickups is non-negative and equals
max 0 (raw prediction): the raw model output when that is ≥ 0, and 0 when
the raw output is negative. -/
theorem predict_clamps_nonnegative (model : List ℚ → ℚ) (r : PredictionRequest) :
    0 ≤ (predictEndpoint model r).predicted_pickups ∧
    (predictEndpoint model r).predicted_pickups = max 0 (model (featureVector r)) := by
  refine ⟨?_, rfl⟩
  exact le_max_left 0 (model (featureVector r))

/-- C3: the confidence bucket is the step function of the unclamped raw
prediction x: x < 5 gives low, 5 ≤ x < 20 gives medium, x ≥ 20 gives high;
in particular raw 5 gives medium, raw 20 gives high, and any negative raw
prediction gives low. -/
theorem confidence_step_function (model : List ℚ → ℚ) (r : PredictionRequest) :
    ((predictEndpoint model r).confidence =
      if model (featureVector r) < 5 then "low"
      else if model (featureVector r) < 20 then "medium"
      else "high") ∧
    (model (featureVector r) = 5 → (predictEndpoint model r).confidence = "medium") ∧
    (model (featureVector r) = 20 → (predictEndpoint model r).confidence = "high") ∧
    (model (featureVector r) < 0 → (predictEndpoint model r).confidence = "low") := by
  refine ⟨rfl, ?_, ?_, ?_⟩
  · intro h
    simp [predictEndpoint, h]
    norm_num
  · intro h
    simp [predictEndpoint, h]
    norm_num
  · intro h
    have h5 : model (featureVector r) < 5 := lt_trans h (by norm_num)
    simp [predictEndpoint, h5]

/-- A concrete prediction request used to exercise the endpoint theorems. -/
def sampleRequest : PredictionRequest :=
  { hour_sin := 9511/10000, hour_cos := 309/1000,
    dow_sin := 0, dow_cos := 1,
    month_sin := 2588/10000, month_cos := 9659/10000,
    lag_1h := 91/2, lag_24h := 191/5, lag_168h := 401/10,
    diff_24h := 73/10,
    rolling_7d_mean := 42, rolling_7d_std := 17/2,
    rolling_14d_mean := 83/2, rolling_7d_cv := 1/5,
    zone_mean_demand := 35, zone_rank := 10, zone_is_top50 := 1 }

/-- C3 witness: on a constant model returning raw prediction 5, the
confidence is exactly medium. -/
theorem confidence_step_function_witness :
    ((fun _ => (5 : ℚ)) (featureVector sampleRequest) = 5) ∧
    (predictEndpoint (fun _ => (5 : ℚ)) sampleRequest).confidence = "medium" :=
  ⟨rfl, (confidence_step_function (fun _ => (5 : ℚ)) sampleRequest).2.1 rfl⟩

/-! ## Artifact store read and the model cache (api.py, load_model) -/

/-- One storage operation performed by the artifact-store read path:
an existence check (stat) or a content read of the model / results file. -/
inductive StorageOp where
  | statModel
  | readModel
  | statResults
  | readResults
deriving DecidableEq

/-- The artifact store as seen by the server: the contents of the model
file and of the results metadata file, each possibly absent.  `M` is the
opaque pickled model, `R` the parsed results metadata. -/
structure Store (M R : Type) where
  modelFile : Option M
  resultsFile : Option R
deriving DecidableEq

/-- The process-wide cache globals `_model` and `_results` (api.py). -/
structure CacheState (M R : Type) where
  model : Option M
  results : Option R
deriving DecidableEq

/-- load_model (api.py): if `_model` is unset, stat the model file — absent
means raise the model-missing error with the globals untouched, present
means read and cache it; then, if `_results` is unset, stat the results
file and read it only when present (absence is tolerated).  Returns the
pair of globals the source returns, the updated globals, and the trace of
storage operations performed. -/
def load_model {M R : Type} (store : Store M R) (st : CacheState M R) :
    Except String (Option M × Option R) × CacheState M R × List StorageOp :=
  match st.model with
  | none =>
    match store.modelFile with
    | none => (Except.error "Model file not found", st, [StorageOp.statModel])
    | some mc =>
      match st.results with
      | none =>
        match store.resultsFile with
        | some rc =>
          (Except.ok (some mc, some rc), ⟨some mc, some rc⟩,
            [StorageOp.statModel, StorageOp.readModel,
             StorageOp.statResults, StorageOp.readResults])
        | none =>
          (Except.ok (some mc, none), ⟨some mc, none⟩,
            [StorageOp.statModel, StorageOp.readModel, StorageOp.statResults])
      | some rc =>
        (Except.ok (some mc, some rc), ⟨some mc, some rc⟩,
          [StorageOp.statModel, StorageOp.readModel])
  | some mc =>
    match st.results with
    | none =>
      match store.resultsFile with
      | some rc =>
        (Except.ok (some mc, some rc), ⟨some mc, some rc⟩,
          [StorageOp.statResults, StorageOp.readResults])
      | none => (Except.ok (some mc, none), st, [StorageOp.statResults])
    | some rc => (Except.ok (some mc, some rc), st, [])

/-- The cache state after n further load_model calls against a fixed store. -/
def loadSeq {M R : Type} (store : Store M R) (st : CacheState M R) : Nat → CacheState M R
  | 0 => st
  | n + 1 => (load_model store (loadSeq store st n)).2.1

/-- C4: the cache loader is at-most-once.  After any successful call, the
cache state is a fixed point of every later call against the same store;
every later call returns the very same (model, results) pair and performs
no content read of either file. -/
theorem load_model_at_most_once {M R : Type} (store : Store M R)
    (st₀ st₁ : CacheState M R) (pair : Option M × Option R) (ops₁ : List StorageOp)
    (h : load_model store st₀ = (Except.ok pair, st₁, ops₁)) (n : Nat) :
    loadSeq store st₁ n = st₁ ∧
    (load_model store st₁).1 = Except.ok pair ∧
    (load_model store st₁).2.1 = st₁ ∧
    StorageOp.readModel ∉ (load_model store st₁).2.2 ∧
    StorageOp.readResults ∉ (load_model store st₁).2.2 := by
  obtain ⟨sm, sr⟩ := st₀
  have key : (load_model store st₁).1 = Except.ok pair ∧
      (load_model store st₁).2.1 = st₁ ∧
      StorageOp.readModel ∉ (load_model store st₁).2.2 ∧
      StorageOp.readResults ∉ (load_model store st₁).2.2 := by
    cases sm with
    | none =>
      cases hmf : store.modelFile with
      | none => simp [load_model, hmf] at h
      | some mc =>
        cases sr with
        | none =>
          cases hrf : store.resultsFile with
          | some rc =>
            simp only [load_model, hmf, hrf] at h
            cases h
            simp [load_model, hrf]
          | none =>
            simp only [load_model, hmf, hrf] at h
            cases h
            simp [load_model, hrf]
        | some rc =>
          simp only [load_model, hmf] at h
          cases h
          simp [load_model]
    | some mc =>
      cases sr with
      | none =>
        cases hrf : store.resultsFile with
        | some rc =>
          simp only [load_model, hrf] at h
          cases h
          simp [load_model, hrf]
        | none =>
          simp only [load_model, hrf] at h
          cases h
          simp [load_model, hrf]
      | some rc =>
        simp only [load_model] at h
        cases h
        simp [load_model]
  have fixed : ∀ m : Nat, loadSeq store st₁ m = st₁ := by
    intro m
    induction m with
    | zero => rfl
    | succ k ih => simpa [loadSeq, ih] using key.2.1
  exact ⟨fixed n, key⟩

/-- A concrete artifact store with both files present, for the cache claim. -/
def sampleStore : Store Nat Nat := ⟨some 7, some 3⟩

/-- The cache globals before any load. -/
def emptyCache : CacheState Nat Nat := ⟨none, none⟩

/-- The cache globals after the first successful load from sampleStore. -/
def warmCache : CacheState Nat Nat := ⟨some 7, some 3⟩

/-- C4 witness: a first load from the sample store succeeds, and the warm
cache is preserved over two further calls, which return the same pair and
perform no content read. -/
theorem load_model_at_most_once_witness :
    load_model sampleStore emptyCache =
      (Except.ok ((some 7 : Option Nat), (some 3 : Option Nat)), warmCache,
        [StorageOp.statModel, StorageOp.readModel,
         StorageOp.statResults, StorageOp.readResults]) ∧
    (loadSeq sampleStore warmCache 2 = warmCache ∧
     (load_model sampleStore warmCache).1 = Except.ok (some 7, some 3) ∧
     (load_model sampleStore warmCache).2.1 = warmCache ∧
     StorageOp.readModel ∉ (load_model sampleStore warmCache).2.2 ∧
     StorageOp.readResults ∉ (load_model sampleStore warmCache).2.2) :=
  ⟨rfl, load_model_at_most_once sampleStore emptyCache warmCache _ _ rfl 2⟩

/-- C5: reading from a store with no model file fails fast with the
distinct model-missing error, for any state of the results file; reading
from a store whose model file is present but whose metadata file is absent
succeeds, returning the loaded model together with an absent results
value. -/
theorem load_model_missing_model_vs_missing_metadata {M R : Type}
    (m : M) (rf : Option R) :
    (load_model (Store.mk (none : Option M) rf) (CacheState.mk none none)).1 =
      Except.error "Model file not found" ∧
    (load_model (Store.mk (some m) (none : Option R)) (CacheState.mk none none)).1 =
      Except.ok (some m, none) := by
  exact ⟨rfl, rfl⟩

/-! ## Results metadata, health and info services (api.py, train.py) -/

/-- Per-split scores as recorded in the results metadata JSON
(train.py, evaluate_model output), keys mae, rmse, r2 in that order. -/
structure SplitScores where
  mae : ℚ
  rmse : ℚ
  r2 : ℚ
deriving DecidableEq

/-- The metrics object of the results metadata: one SplitScores per split,
keys train, val, test in that order. -/
structure MetricsTriple where
  train : SplitScores
  val : SplitScores
  test : SplitScores
deriving DecidableEq

/-- The results metadata JSON written by save_model (train.py) and read
back by the server. -/
structure ResultsMeta where
  model_type : String
  n_features : Nat
  features : List String
  hyperparameters : List (String × ℚ)
  metrics : MetricsTriple
deriving DecidableEq

/-- Schema for a health check response (api.py, class HealthResponse);
test_mae is optional. -/
structure HealthResponse where
  status : String
  model_loaded : Bool
  n_features : Nat
  test_mae : Option ℚ
deriving DecidableEq

/-- The /info response body (api.py, model_info), sourced entirely from
the results metadata. -/
structure InfoResponse where
  model_type : String
  n_features : Nat
  features : List String
  hyperparameters : List (String × ℚ)
  metrics : MetricsTriple
deriving DecidableEq

/-- health_check (api.py): load the cache, report status healthy,
model_loaded from the returned model value, n_features from the
compile-time FEATURE_COLUMNS constant, and test_mae via the guarded
metrics lookup that yields an absent value when results is None.  A load
failure becomes an HTTP 500. -/
def health_check {M : Type} (store : Store M ResultsMeta)
    (st : CacheState M ResultsMeta) : Except Nat HealthResponse :=
  match (load_model store st).1 with
  | Except.error _ => Except.error 500
  | Except.ok (m, results) =>
    Except.ok
      { status := "healthy"
        model_loaded := m.isSome
        n_features := FEATURE_COLUMNS.length
        test_mae := results.map fun res => res.metrics.test.mae }

/-- model_info (api.py): load the cache; if results is None the endpoint
raises and answers HTTP 500 with the metadata-unavailable detail,
otherwise it returns the stored metadata fields. -/
def model_info {M : Type} (store : Store M ResultsMeta)
    (st : CacheState M ResultsMeta) : Except (Nat × String) InfoResponse :=
  match (load_model store st).1 with
  | Except.error e => Except.error (500, e)
  | Except.ok (_, results) =>
    match results with
    | none => Except.error (500, "Results metadata not available")
    | some res =>
      Except.ok
        { model_type := res.model_type
          n_features := res.n_features
          features := res.features
          hyperparameters := res.hyperparameters
          metrics := res.metrics }

/-- C6: with the model present but the metadata file absent, the health
service still answers healthy with test_mae absent, while the info service
fails with the distinct metadata-unavailable error; with the metadata
present both succeed, so the two services differ exactly on metadata
absence. -/
theorem health_vs_info_on_missing_metadata {M : Type} (m : M) (res : ResultsMeta) :
    health_check (Store.mk (some m) (none : Option ResultsMeta))
        (CacheState.mk none none) =
      Except.ok ⟨"healthy", true, 17, none⟩ ∧
    model_info (Store.mk (some m) (none : Option ResultsMeta))
        (CacheState.mk none none) =
      Except.error (500, "Results metadata not available") ∧
    health_check (Store.mk (some m) (some res)) (CacheState.mk none none) =
      Except.ok ⟨"healthy", true, 17, some res.metrics.test.mae⟩ ∧
    model_info (Store.mk (some m) (some res)) (CacheState.mk none none) =
      Except.ok ⟨res.model_type, res.n_features, res.features,
        res.hyperparameters, res.metrics⟩ := by
  exact ⟨rfl, rfl, rfl, rfl⟩

/-- C10: every successful health response reports n_features as the length
of the compile-time FEATURE_COLUMNS constant, namely 17, for every state
of the results metadata file — absent or recording any feature count. -/
theorem health_n_features_from_schema {M : Type} (m : M) (rf : Option ResultsMeta) :
    health_check (Store.mk (some m) rf) (CacheState.mk none none) =
      Except.ok ⟨"healthy", true, FEATURE_COLUMNS.length,
        rf.map fun res => res.metrics.test.mae⟩ ∧
    FEATURE_COLUMNS.length = 17 := by
  cases rf with
  | none => exact ⟨rfl, rfl⟩
  | some res => exact ⟨rfl, rfl⟩

/-! ## Artifact store write and the training run (train.py) -/

/-- One write-side operation on the models directory, in the order the
source performs them (train.py, save_model). -/
inductive WriteOp where
  | mkdirModels
  | writeModel
  | writeFeatureList
  | writeResults
deriving DecidableEq

/-- The models directory as the training run sees it: whether the
directory exists and the contents of the three artifact resources. -/
structure ModelsDir (M : Type) where
  dirExists : Bool
  modelFile : Option M
  featureListFile : Option String
  resultsFile : Option ResultsMeta
deriving DecidableEq

/-- save_model (train.py): create the models directory (a no-op when it
already exists), then write the pickled model, then the newline-joined
feature list, then the results metadata JSON assembled from the model
type, the feature count, the ordered feature names, the hyperparameters
verbatim, and the per-split metrics.  Returns the new directory state and
the ordered trace of writes. -/
def save_model {M : Type} (model : M) (feature_cols : List String)
    (results : MetricsTriple) (fs : ModelsDir M) : ModelsDir M × List WriteOp :=
  let fs1 : ModelsDir M := { fs with dirExists := true }
  let fs2 : ModelsDir M := { fs1 with modelFile := some model }
  let fs3 : ModelsDir M :=
    { fs2 with featureListFile := some (String.intercalate "\n" feature_cols) }
  let results_with_meta : ResultsMeta :=
    { model_type := "XGBoost"
      n_features := feature_cols.length
      features := feature_cols
      hyperparameters := XGBOOST_PARAMS
      metrics := results }
  let fs4 : ModelsDir M := { fs3 with resultsFile := some results_with_meta }
  (fs4, [WriteOp.mkdirModels, WriteOp.writeModel,
         WriteOp.writeFeatureList, WriteOp.writeResults])

/-- main (train.py): run load_features, prepare_features, train_model and
evaluate_model in sequence; any exception aborts the run with the models
directory untouched, and only after all four have returned does save_model
write the artifacts.  The fallible stages are opaque parameters, as their
internals do not affect the control flow being modelled. -/
def mainRun {M D P : Type} (load_features : Except String D)
    (prepare_features : D → Except String P)
    (train_model : P → Except String M)
    (evaluate : M → P → Except String MetricsTriple)
    (fs : ModelsDir M) : Except String Unit × ModelsDir M × List WriteOp :=
  match load_features with
  | Except.error e => (Except.error e, fs, [])
  | Except.ok d =>
    match prepare_features d with
    | Except.error e => (Except.error e, fs, [])
    | Except.ok p =>
      match train_model p with
      | Except.error e => (Except.error e, fs, [])
      | Except.ok model =>
        match evaluate model p with
        | Except.error e => (Except.error e, fs, [])
        | Except.ok results =>
          let saved := save_model model FEATURE_COLUMNS results fs
          (Except.ok (), saved.1, saved.2)

/-- C8: whenever the training run fails — which in this pipeline happens
exactly when loading, preparation, fit or evaluation raises — the models
directory is returned unchanged and no write operation was performed. -/
theorem train_abort_preserves_artifacts {M D P : Type}
    (load_features : Except String D) (prepare_features : D → Except String P)
    (train_model : P → Except String M)
    (evaluate : M → P → Except String MetricsTriple)
    (fs : ModelsDir M) (e : String)
    (h : (mainRun load_features prepare_features train_model evaluate fs).1 =
      Except.error e) :
    (mainRun load_features prepare_features train_model evaluate fs).2.1 = fs ∧
    (mainRun load_features prepare_features train_model evaluate fs).2.2 = [] := by
  cases hl : load_features with
  | error el => simp [mainRun, hl]
  | ok d =>
    cases hp : prepare_features d with
    | error ep => simp [mainRun, hl, hp]
    | ok p =>
      cases ht : train_model p with
      | error et => simp [mainRun, hl, hp, ht]
      | ok model =>
        cases he : evaluate model p with
        | error ee => simp [mainRun, hl, hp, ht, he]
        | ok results => simp [mainRun, hl, hp, ht, he] at h

/-- An empty models directory, as before any training run. -/
def emptyModelsDir : ModelsDir Nat :=
  { dirExists := false, modelFile := none, featureListFile := none,
    resultsFile := none }

/-- C8 witness: a run whose dataset loading raises leaves the empty models
directory untouched and performs no write. -/
theorem train_abort_preserves_artifacts_witness :
    ((mainRun (Except.error "dataset missing") (fun d : Nat => Except.ok d)
        (fun _ : Nat => Except.ok (0 : Nat))
        (fun _ _ => Except.error "unused") emptyModelsDir).1 =
      Except.error "dataset missing") ∧
    ((mainRun (Except.error "dataset missing") (fun d : Nat => Except.ok d)
        (fun _ : Nat => Except.ok (0 : Nat))
        (fun _ _ => Except.error "unused") emptyModelsDir).2.1 = emptyModelsDir ∧
     (mainRun (Except.error "dataset missing") (fun d : Nat => Except.ok d)
        (fun _ : Nat => Except.ok (0 : Nat))
        (fun _ _ => Except.error "unused") emptyModelsDir).2.2 = []) :=
  ⟨rfl, train_abort_preserves_artifacts (Except.error "dataset missing")
    (fun d : Nat => Except.ok d) (fun _ : Nat => Except.ok (0 : Nat))
    (fun _ _ => Except.error "unused") emptyModelsDir "dataset missing" rfl⟩

/-- C9: the artifact write ensures the destination directory exists, then
writes model, feature list and results metadata in that order; the feature
list resource is exactly the 17 schema names joined by newlines in schema
order, and the metadata records the model type, n_features = 17, the
ordered feature names, the hyperparameters verbatim, and the per-split
metrics. -/
theorem save_model_writes_ordered {M : Type} (model : M)
    (results : MetricsTriple) (fs : ModelsDir M) :
    save_model model FEATURE_COLUMNS results fs =
      ({ dirExists := true
         modelFile := some model
         featureListFile := some (String.intercalate "\n" FEATURE_COLUMNS)
         resultsFile := some
           { model_type := "XGBoost"
             n_features := 17
             features := FEATURE_COLUMNS
             hyperparameters := XGBOOST_PARAMS
             metrics := results } },
       [WriteOp.mkdirModels, WriteOp.writeModel,
        WriteOp.writeFeatureList, WriteOp.writeResults]) ∧
    String.intercalate "\n" FEATURE_COLUMNS =
      "hour_sin\nhour_cos\ndow_sin\ndow_cos\nmonth_sin\nmonth_cos\nlag_1h\nlag_24h\nlag_168h\ndiff_24h\nrolling_7d_mean\nrolling_7d_std\nrolling_14d_mean\nrolling_7d_cv\nzone_mean_demand\nzone_rank\nzone_is_top50" ∧
    FEATURE_COLUMNS.length = 17 := by
  exact ⟨rfl, rfl, rfl⟩

/-! ## Model evaluation metrics (train.py, evaluate_model) -/

/-- sklearn mean_absolute_error: the mean of the absolute residuals. -/
noncomputable def mean_absolute_error (y yp : List ℝ) : ℝ :=
  (List.zipWith (fun a b => |a - b|) y yp).sum / y.length

/-- sklearn mean_squared_error: the mean of the squared residuals. -/
noncomputable def mean_squared_error (y yp : List ℝ) : ℝ :=
  (List.zipWith (fun a b => (a - b) ^ 2) y yp).sum / y.length

/-- sklearn r2_score: one minus the ratio of residual to total sum of
squares. -/
noncomputable def r2_score (y yp : List ℝ) : ℝ :=
  1 - (List.zipWith (fun a b => (a - b) ^ 2) y yp).sum /
    (y.map (fun a => (a - y.sum / y.length) ^ 2)).sum

/-- evaluate_model (train.py): recompute predictions once per split, then
record, for each of train, val and test in that order, the dictionary
with keys mae, rmse, r2 in that order, where rmse is
`mean_squared_error(...) ** 0.5` — the square root, since the mean squared
error of a float sample is non-negative. -/
noncomputable def evaluate_model (model : List (List ℝ) → List ℝ)
    (X_train : List (List ℝ)) (y_train : List ℝ)
    (X_val : List (List ℝ)) (y_val : List ℝ)
    (X_test : List (List ℝ)) (y_test : List ℝ) :
    List (String × List (String × ℝ)) :=
  let y_train_pred := model X_train
  let y_val_pred := model X_val
  let y_test_pred := model X_test
  [ ("train",
      [ ("mae", mean_absolute_error y_train y_train_pred),
        ("rmse", Real.sqrt (mean_squared_error y_train y_train_pred)),
        ("r2", r2_score y_train y_train_pred) ]),
    ("val",
      [ ("mae", mean_absolute_error y_val y_val_pred),
        ("rmse", Real.sqrt (mean_squared_error y_val y_val_pred)),
        ("r2", r2_score y_val y_val_pred) ]),
    ("test",
      [ ("mae", mean_absolute_error y_test y_test_pred),
        ("rmse", Real.sqrt (mean_squared_error y_test y_test_pred)),
        ("r2", r2_score y_test y_test_pred) ]) ]

/-- Look up one recorded metric of one split in the evaluation results. -/
def lookupMetric (results : List (String × List (String × ℝ)))
    (split metric : String) : Option ℝ :=
  (results.lookup split).bind fun entry => entry.lookup metric

/-- A sum of squared residuals is non-negative. -/
theorem sum_sq_residuals_nonneg :
    ∀ y yp : List ℝ, 0 ≤ (List.zipWith (fun a b => (a - b) ^ 2) y yp).sum
  | [], _ => by simp
  | _ :: _, [] => by simp
  | a :: y, b :: yp => by
    have ih := sum_sq_residuals_nonneg y yp
    simp only [List.zipWith, List.sum_cons]
    positivity

/-- The mean squared error of any sample is non-negative. -/
theorem mean_squared_error_nonneg (y yp : List ℝ) :
    0 ≤ mean_squared_error y yp := by
  unfold mean_squared_error
  exact div_nonneg (sum_sq_residuals_nonneg y yp) (Nat.cast_nonneg _)

/-- C7: the evaluation results list the three splits train, val, test in
order, each recording the same metric keys mae, rmse, r2 in the same
order; for each split, the recorded mae and r2 come from that split's
predictions, and the recorded rmse squared equals the mean squared error
of those same predictions. -/
theorem evaluate_model_rmse_consistent (model : List (List ℝ) → List ℝ)
    (X_train : List (List ℝ)) (y_train : List ℝ)
    (X_val : List (List ℝ)) (y_val : List ℝ)
    (X_test : List (List ℝ)) (y_test : List ℝ) :
    ((evaluate_model model X_train y_train X_val y_val X_test y_test).map
        (fun e => (e.1, e.2.map Prod.fst)) =
      [ ("train", ["mae", "rmse", "r2"]),
        ("val", ["mae", "rmse", "r2"]),
        ("test", ["mae", "rmse", "r2"]) ]) ∧
    (lookupMetric (evaluate_model model X_train y_train X_val y_val X_test y_test)
        "train" "mae" = some (mean_absolute_error y_train (model X_train))) ∧
    (lookupMetric (evaluate_model model X_train y_train X_val y_val X_test y_test)
        "train" "r2" = some (r2_score y_train (model X_train))) ∧
    ((lookupMetric (evaluate_model model X_train y_train X_val y_val X_test y_test)
        "train" "rmse").map (fun x => x ^ 2) =
      some (mean_squared_error y_train (model X_train))) ∧
    (lookupMetric (evaluate_model model X_train y_train X_val y_val X_test y_test)
        "val" "mae" = some (mean_absolute_error y_val (model X_val))) ∧
    (lookupMetric (evaluate_model model X_train y_train X_val y_val X_test y_test)
        "val" "r2" = some (r2_score y_val (model X_val))) ∧
    ((lookupMetric (evaluate_model model X_train y_train X_val y_val X_test y_test)
        "val" "rmse").map (fun x => x ^ 2) =
      some (mean_squared_error y_val (model X_val))) ∧
    (lookupMetric (evaluate_model model X_train y_train X_val y_val X_test y_test)
        "test" "mae" = some (mean_absolute_error y_test (model X_test))) ∧
    (lookupMetric (evaluate_model model X_train y_train X_val y_val X_test y_test)
        "test" "r2" = some (r2_score y_test (model X_test))) ∧
    ((lookupMetric (evaluate_model model X_train y_train X_val y_val X_test y_test)
        "test" "rmse").map (fun x => x ^ 2) =
      some (mean_squared_error y_test (model X_test))) := by
  have hsq : ∀ y yp : List ℝ,
      Real.sqrt (mean_squared_error y yp) ^ 2 = mean_squared_error y yp :=
    fun y yp => Real.sq_sqrt (mean_squared_error_nonneg y yp)
  refine ⟨rfl, rfl, rfl, ?_, rfl, rfl, ?_, rfl, rfl, ?_⟩
  · show (some (Real.sqrt (mean_squared_error y_train (model X_train)))).map
        (fun x => x ^ 2) = _
    simp [hsq]
  · show (some (Real.sqrt (mean_squared_error y_val (model X_val)))).map
        (fun x => x ^ 2) = _
    simp [hsq]
  · show (some (Real.sqrt (mean_squared_error y_test (model X_test)))).map
        (fun x => x ^ 2) = _
    simp [hsq]
